import Mathlib

/-!
Shallow embedding of `src/inject/scopes.py` (the scope abstraction of the
python-inject library) and proofs about it.

Modelling conventions:
* A Python value is `Option V`: `none` is Python `None` (which is also the
  absent-value sentinel implicitly returned by `AbstractScope.get`), and
  `some v` is any non-`None` value.
* A Python `dict` is `Dict K A`, a total function `K → Option A`; presence of
  a key is `Option.isSome`.  `dict[k] = v` replaces any previous entry, `del`
  removes one, `clear` (used by `ThreadLocalBindings.clear`) resets to empty.
* A Python object passed to `bind_factory` is `PyObj V`: either a zero-argument
  callable (`PyObj.func`) or a non-callable object (`PyObj.obj`); `callable(x)`
  is `PyObj.callable`.
* A raised exception is `Except.error`.  In every operation of the source that
  raises, the raise precedes every mutation, so an `Except.error` result means
  the scope the caller holds is unchanged.
* `AbstractScope.get` has an observable effect besides its return value: it may
  invoke the bound factory.  `Scope.get` therefore returns a triple
  `(result, invoked, new scope)` where `invoked` records whether the factory
  branch ran (and hence the factory was called exactly once during this call).
-/

namespace Inject

/-- A Python `dict` from keys `K` to values `A`, modelled extensionally as a
total function returning `none` for absent keys. -/
structure Dict (K A : Type) where
  find : K → Option A

variable {K V A T : Type}

/-- The empty dict `{}`. -/
def Dict.empty : Dict K A :=
  ⟨fun _ => none⟩

/-- Python `k in d`. -/
def Dict.contains [DecidableEq K] (d : Dict K A) (k : K) : Bool :=
  (d.find k).isSome

/-- Python `d.get(k)`, returning `default` when the key is absent (the source
always uses the one-argument form whose default is `None`). -/
def Dict.getD (d : Dict K A) (k : K) (default : A) : A :=
  (d.find k).getD default

/-- Python `d[k] = v`. -/
def Dict.set [DecidableEq K] (d : Dict K A) (k : K) (v : A) : Dict K A :=
  ⟨fun j => if j = k then some v else d.find j⟩

/-- Python `del d[k]` (the source only calls it under a containment guard). -/
def Dict.del [DecidableEq K] (d : Dict K A) (k : K) : Dict K A :=
  ⟨fun j => if j = k then none else d.find j⟩

/-- A Python object offered to `bind_factory`: either a zero-argument callable
producing a Python value, or a non-callable object. -/
inductive PyObj (V : Type) where
  | func (f : Unit → Option V)
  | obj (v : Option V)

/-- Python `callable(x)`. -/
def PyObj.callable : PyObj V → Bool
  | .func _ => true
  | .obj _ => false

/-- The `FactoryNotCallable` exception from `inject.exc`, carrying the
offending object, as in `raise FactoryNotCallable(factory)`. -/
inductive FactoryNotCallable (V : Type) where
  | mk (payload : PyObj V)

/-- The `NoRequestError` exception from `inject.exc` (no payload). -/
inductive NoRequestError where
  | mk

/-- The state of an `AbstractScope` with a plain dict binding store: the
`_bindings` dict and the `_factories` dict.  This is exactly
`ApplicationScope`'s store, and also the view a single thread has of a
`ThreadScope`/`RequestScope` store.  The factories dict holds the callables
accepted by `bind_factory` (only callables are ever stored there, because
`bind_factory` raises before storing anything else). -/
structure Scope (K V : Type) where
  bindings : Dict K (Option V)
  factories : Dict K (Unit → Option V)

/-- A scope with no bindings and no factories. -/
def Scope.empty : Scope K V :=
  ⟨Dict.empty, Dict.empty⟩

/-- `AbstractScope.is_bound`: `return type in self._bindings`. -/
def Scope.is_bound [DecidableEq K] (s : Scope K V) (k : K) : Bool :=
  s.bindings.contains k

/-- `AbstractScope.unbind`: `if type in self._bindings: del self._bindings[type]`
(the logging call is not modelled). -/
def Scope.unbind [DecidableEq K] (s : Scope K V) (k : K) : Scope K V :=
  if s.bindings.contains k then { s with bindings := s.bindings.del k } else s

/-- `AbstractScope.bind`: `if self.is_bound(type): self.unbind(type)` followed
by `self._bindings[type] = to` (logging not modelled; the source's parameter
`to` is a Lean keyword, hence `v` here). -/
def Scope.bind [DecidableEq K] (s : Scope K V) (k : K) (v : Option V) : Scope K V :=
  let s1 := if s.is_bound k then s.unbind k else s
  { s1 with bindings := s1.bindings.set k v }

/-- `AbstractScope.is_factory_bound`: `return type in self._factories`. -/
def Scope.is_factory_bound [DecidableEq K] (s : Scope K V) (k : K) : Bool :=
  s.factories.contains k

/-- `AbstractScope.unbind_factory`:
`if type in self._factories: del self._factories[type]` (logging not
modelled). -/
def Scope.unbind_factory [DecidableEq K] (s : Scope K V) (k : K) : Scope K V :=
  if s.factories.contains k then { s with factories := s.factories.del k } else s

/-- `AbstractScope.bind_factory`: first `if not callable(factory): raise
FactoryNotCallable(factory)` (matching on `PyObj.obj` is the non-callable
case), then `self.unbind_factory(type)` and `self._factories[type] = factory`.
The raise happens before any mutation, so an error leaves the scope the caller
holds unchanged. -/
def Scope.bind_factory [DecidableEq K] (s : Scope K V) (k : K) (factory : PyObj V) :
    Except (FactoryNotCallable V) (Scope K V) :=
  match factory with
  | .obj _ => Except.error (FactoryNotCallable.mk factory)
  | .func f =>
    let s1 := s.unbind_factory k
    Except.ok { s1 with factories := s1.factories.set k f }

/-- `AbstractScope.get`: if `type in self._bindings` return
`self._bindings.get(type)`; elif `type in self._factories` invoke the factory,
`self.bind(type, inst)` and return `inst`; else fall off the end, returning
Python `None` (the absent-value sentinel).  The middle component of the result
records whether the factory branch ran. -/
def Scope.get [DecidableEq K] (s : Scope K V) (k : K) : Option V × Bool × Scope K V :=
  if s.bindings.contains k then
    (s.bindings.getD k none, false, s)
  else
    match s.factories.find k with
    | some factory =>
      let inst := factory ()
      (inst, true, s.bind k inst)
    | none => (none, false, s)

/-! Concrete states used by witnesses and counterexamples. -/

/-- A concrete factory returning the Python value `7`. -/
def fact7 : Unit → Option Nat :=
  fun _ => some 7

/-- A concrete scope whose only content is the factory `fact7` bound for
key `0`; it is exactly the successful result of
`Scope.empty.bind_factory 0 (PyObj.func fact7)`. -/
def factScope : Scope Nat Nat :=
  { bindings := Dict.empty, factories := Dict.set Dict.empty 0 fact7 }

/-- A concrete scope with the Python value `5` bound for key `0`. -/
def boundScope : Scope Nat Nat :=
  Scope.empty.bind 0 (some 5)

/-! Helper lemmas shared by the claim theorems. -/

@[simp]
theorem Dict.find_set [DecidableEq K] (d : Dict K A) (k j : K) (v : A) :
    (d.set k v).find j = if j = k then some v else d.find j :=
  rfl

@[simp]
theorem Dict.find_del [DecidableEq K] (d : Dict K A) (k j : K) :
    (d.del k).find j = if j = k then none else d.find j :=
  rfl

@[simp]
theorem Dict.find_empty (k : K) : (Dict.empty : Dict K A).find k = none :=
  rfl

/-- The binding store after `bind k v`: key `k` now holds `v`, every other key
is untouched (the unbind-then-set in the source collapses to a plain store). -/
theorem Scope.find_bind [DecidableEq K] (s : Scope K V) (k j : K) (v : Option V) :
    (s.bind k v).bindings.find j = if j = k then some v else s.bindings.find j := by
  unfold Scope.bind Scope.unbind Scope.is_bound
  by_cases h : s.bindings.contains k <;>
    by_cases hj : j = k <;>
    simp [h, hj]

/-- `bind` never touches the factories dict. -/
theorem Scope.factories_bind [DecidableEq K] (s : Scope K V) (k : K) (v : Option V) :
    (s.bind k v).factories = s.factories := by
  unfold Scope.bind Scope.unbind Scope.is_bound
  by_cases h : s.bindings.contains k <;> simp [h]

/-- `unbind` never touches the factories dict. -/
theorem Scope.factories_unbind [DecidableEq K] (s : Scope K V) (k : K) :
    (s.unbind k).factories = s.factories := by
  unfold Scope.unbind
  by_cases h : s.bindings.contains k <;> simp [h]

/-- `unbind_factory` never touches the bindings dict. -/
theorem Scope.bindings_unbind_factory [DecidableEq K] (s : Scope K V) (k : K) :
    (s.unbind_factory k).bindings = s.bindings := by
  unfold Scope.unbind_factory
  by_cases h : s.factories.contains k <;> simp [h]

/-- `get` on a key present in the bindings dict returns the stored value,
does not invoke any factory and leaves the scope unchanged. -/
theorem Scope.get_found [DecidableEq K] {s : Scope K V} {k : K} {v : Option V}
    (h : s.bindings.find k = some v) : s.get k = (v, false, s) := by
  unfold Scope.get
  simp [Dict.contains, Dict.getD, h]

/-- `get` on a key absent from the bindings dict but present in the factories
dict invokes the factory, memoizes its result via `bind` and returns it. -/
theorem Scope.get_via_factory [DecidableEq K] {s : Scope K V} {k : K}
    {f : Unit → Option V} (hb : s.bindings.find k = none)
    (hf : s.factories.find k = some f) :
    s.get k = (f (), true, s.bind k (f ())) := by
  unfold Scope.get
  simp [Dict.contains, hb, hf]

/-- `get` on a key absent from both dicts returns the sentinel `none` without
invoking anything and leaves the scope unchanged. -/
theorem Scope.get_absent [DecidableEq K] {s : Scope K V} {k : K}
    (hb : s.bindings.find k = none) (hf : s.factories.find k = none) :
    s.get k = (none, false, s) := by
  unfold Scope.get
  simp [Dict.contains, hb, hf]

/-! Claim theorems about `AbstractScope` (claims C1, C3, C4, C6, C7, C9). -/

/-- C1 (counterexample): on a scope with a factory bound for key `0`, calling
`bind_factory(0, x)` with a non-callable `x` raises `FactoryNotCallable`, but
the prior factory is still bound afterwards: the callability check in the
source precedes the `unbind_factory` call, so the raise happens before any
mutation and `is_factory_bound 0` is still `true`, not `false` as the claim
states. -/
theorem bind_factory_non_callable_cx :
    factScope.bind_factory 0 (PyObj.obj none) =
      Except.error (FactoryNotCallable.mk (PyObj.obj none)) ∧
    factScope.is_factory_bound 0 = true :=
  ⟨rfl, rfl⟩

/-- C1 (amended): for every scope, key and non-callable object `x`,
`bind_factory(k, x)` raises `FactoryNotCallable` carrying `x`; since the raise
precedes every mutation, the scope — including any prior factory bound for
`k` — is left unchanged. -/
theorem bind_factory_non_callable_raises [DecidableEq K] (s : Scope K V) (k : K)
    (x : PyObj V) (h : x.callable = false) :
    s.bind_factory k x = Except.error (FactoryNotCallable.mk x) := by
  cases x with
  | func f => simp [PyObj.callable] at h
  | obj w => rfl

/-- C1 (witness): the amended theorem applied at a concrete non-callable
object on `factScope`. -/
theorem bind_factory_non_callable_raises_witness :
    PyObj.callable (PyObj.obj (none : Option Nat)) = false ∧
    factScope.bind_factory 0 (PyObj.obj none) =
      Except.error (FactoryNotCallable.mk (PyObj.obj none)) :=
  ⟨rfl, bind_factory_non_callable_raises factScope 0 (PyObj.obj none) rfl⟩

/-- C3: with a factory `f` bound for `k` and no direct binding for `k`, the
first `get k` invokes `f` (the `true` flag — the factory branch runs exactly
once in that call), memoizes the result as a direct binding for `k` and
returns it; a subsequent `get k` returns the same result with the `false`
flag (no factory invocation) and leaves the scope unchanged, so every later
`get k` absent an intervening `unbind` behaves identically. -/
theorem factory_memoization [DecidableEq K] (s : Scope K V) (k : K)
    (f : Unit → Option V) (hb : s.bindings.find k = none)
    (hf : s.factories.find k = some f) :
    s.get k = (f (), true, s.bind k (f ())) ∧
    (s.bind k (f ())).bindings.find k = some (f ()) ∧
    (s.bind k (f ())).is_bound k = true ∧
    (s.bind k (f ())).get k = (f (), false, s.bind k (f ())) := by
  have h2 : (s.bind k (f ())).bindings.find k = some (f ()) := by
    simp [Scope.find_bind]
  refine ⟨Scope.get_via_factory hb hf, h2, ?_, Scope.get_found h2⟩
  simp [Scope.is_bound, Dict.contains, h2]

/-- C3 (witness): the memoization theorem applied to `factScope` at key `0`:
the first `get` invokes `fact7` and returns `7`, the second returns the
memoized `7` without invoking. -/
theorem factory_memoization_witness :
    (factScope.bindings.find 0 = none ∧ factScope.factories.find 0 = some fact7) ∧
    factScope.get 0 = (some 7, true, factScope.bind 0 (some 7)) ∧
    (factScope.bind 0 (some 7)).get 0 = (some 7, false, factScope.bind 0 (some 7)) :=
  ⟨⟨rfl, rfl⟩, (factory_memoization factScope 0 fact7 rfl rfl).1,
    (factory_memoization factScope 0 fact7 rfl rfl).2.2.2⟩

/-- C4: `get k` resolves in order — a direct binding is returned as is (no
factory invocation, scope unchanged); otherwise a bound factory is invoked,
its result memoized via `bind` and returned; otherwise the sentinel `none` is
returned with no factory invocation and no state change, and no exception:
`Scope.get` is a total function with no error outcome. -/
theorem get_resolution_order [DecidableEq K] (s : Scope K V) (k : K) :
    (∀ v, s.bindings.find k = some v → s.get k = (v, false, s)) ∧
    (∀ f, s.bindings.find k = none → s.factories.find k = some f →
      s.get k = (f (), true, s.bind k (f ()))) ∧
    (s.bindings.find k = none → s.factories.find k = none →
      s.get k = (none, false, s)) :=
  ⟨fun _ h => Scope.get_found h, fun _ hb hf => Scope.get_via_factory hb hf,
    fun hb hf => Scope.get_absent hb hf⟩

/-- C4 (witness): the resolution-order theorem applied at concrete scopes for
each of the three branches. -/
theorem get_resolution_order_witness :
    boundScope.get 0 = (some 5, false, boundScope) ∧
    (Scope.empty : Scope Nat Nat).get 0 = (none, false, Scope.empty) ∧
    factScope.get 0 = (some 7, true, factScope.bind 0 (some 7)) :=
  ⟨(get_resolution_order boundScope 0).1 (some 5) rfl,
    (get_resolution_order Scope.empty 0).2.2 rfl rfl,
    (get_resolution_order factScope 0).2.1 fact7 rfl rfl⟩

/-- C6: after `bind k v`, `get k` returns `v` and `is_bound k` is `true`;
rebinding (`bind k v1` then `bind k v2`) leaves `get k = v2` — `bind` is a
total function (no error outcome), the old binding having been removed by the
`unbind` inside `bind` before the new one is stored. -/
theorem bind_get_rebind [DecidableEq K] (s : Scope K V) (k : K) (v v1 v2 : Option V) :
    ((s.bind k v).get k = (v, false, s.bind k v) ∧ (s.bind k v).is_bound k = true) ∧
    ((s.bind k v1).bind k v2).get k = (v2, false, (s.bind k v1).bind k v2) := by
  have h1 : (s.bind k v).bindings.find k = some v := by simp [Scope.find_bind]
  have h2 : ((s.bind k v1).bind k v2).bindings.find k = some v2 := by
    simp [Scope.find_bind]
  exact ⟨⟨Scope.get_found h1, by simp [Scope.is_bound, Dict.contains, h1]⟩,
    Scope.get_found h2⟩

/-- C7: the binding map and the factory map are independent — a successful
`bind_factory` leaves the bindings dict (hence `is_bound` and the value
`get`'s direct branch would read) unchanged at every key, `unbind_factory`
does too, and `bind`/`unbind` leave `is_factory_bound` unchanged at every
key. -/
theorem binding_factory_independence [DecidableEq K] (s s' : Scope K V) (k : K)
    (x : PyObj V) (v : Option V) :
    (s.bind_factory k x = Except.ok s' →
      ∀ j, s'.bindings.find j = s.bindings.find j ∧ s'.is_bound j = s.is_bound j) ∧
    (∀ j, (s.unbind_factory k).bindings.find j = s.bindings.find j) ∧
    (∀ j, (s.bind k v).is_factory_bound j = s.is_factory_bound j) ∧
    (∀ j, (s.unbind k).is_factory_bound j = s.is_factory_bound j) := by
  refine ⟨?_, ?_, ?_, ?_⟩
  · intro h j
    cases x with
    | obj w => simp [Scope.bind_factory] at h
    | func f =>
      simp only [Scope.bind_factory, Except.ok.injEq] at h
      subst h
      constructor
      · simp [Scope.bindings_unbind_factory]
      · simp [Scope.is_bound, Dict.contains, Scope.bindings_unbind_factory]
  · intro j
    simp [Scope.bindings_unbind_factory]
  · intro j
    simp [Scope.is_factory_bound, Dict.contains, Scope.factories_bind]
  · intro j
    simp [Scope.is_factory_bound, Dict.contains, Scope.factories_unbind]

/-- C7 (witness): the independence theorem applied at concrete scopes —
`bind_factory` on the empty scope yields `factScope` and leaves key `0`
unbound; `bind` on the empty scope (yielding `boundScope`) leaves key `0`
factory-unbound. -/
theorem binding_factory_independence_witness :
    Scope.empty.bind_factory 0 (PyObj.func fact7) = Except.ok factScope ∧
    factScope.bindings.find 0 = (Scope.empty : Scope Nat Nat).bindings.find 0 ∧
    boundScope.is_factory_bound 0 = (Scope.empty : Scope Nat Nat).is_factory_bound 0 :=
  ⟨rfl,
    ((binding_factory_independence Scope.empty factScope 0 (PyObj.func fact7)
      (some 5)).1 rfl 0).1,
    (binding_factory_independence Scope.empty factScope 0 (PyObj.func fact7)
      (some 5)).2.2.1 0⟩

/-- C9: binding Python `None` (the absent-value sentinel) as a value makes
`is_bound k` true, and `get k` returns `none` — indistinguishable from the
no-binding sentinel — without invoking any factory (the `false` flag), the
direct-binding membership check preceding the factory branch; the last
conjunct shows this concretely on a scope that does have a factory bound for
the key. -/
theorem bind_none_shadows [DecidableEq K] (s : Scope K V) (k : K) :
    (s.bind k none).is_bound k = true ∧
    (s.bind k none).get k = (none, false, s.bind k none) ∧
    (factScope.bind 0 none).get 0 = (none, false, factScope.bind 0 none) := by
  have h : (s.bind k none).bindings.find k = some none := by simp [Scope.find_bind]
  have h0 : (factScope.bind 0 none).bindings.find 0 = some none := by
    simp [Scope.find_bind]
  exact ⟨by simp [Scope.is_bound, Dict.contains, h], Scope.get_found h,
    Scope.get_found h0⟩

/-! Embedding of `RequestScope` (and its `RequestLocalBindings` store).

`ThreadLocalBindings` / `RequestLocalBindings` subclass `threading.local`:
every thread that touches the store sees its own lazily created instance,
initialized by `__init__`.  We model the whole family of per-thread instances
as a total function from thread identities `T` to the per-thread state, every
thread starting at the initial state.  `RequestScope` inherits its factories
dict from `AbstractScope`, so factories are shared across threads while the
`_bindings` store (`RequestLocalBindings`) is per-thread. -/

/-- The per-thread state of a `RequestLocalBindings` instance: the `_data`
dict (from `ThreadLocalBindings.__init__`) and the `request_started` flag
(from `RequestLocalBindings.__init__`, initially `False`). -/
structure RequestLocalBindings (K V : Type) where
  data : Dict K (Option V)
  request_started : Bool

/-- The state `__init__` gives a fresh per-thread instance. -/
def RequestLocalBindings.init : RequestLocalBindings K V :=
  ⟨Dict.empty, false⟩

/-- `RequestLocalBindings.start_request`: `self.request_started = True`. -/
def RequestLocalBindings.start_request (l : RequestLocalBindings K V) :
    RequestLocalBindings K V :=
  { l with request_started := true }

/-- `RequestLocalBindings.end_request`: `self.clear()` (which sets
`self._data = {}`) then `self.request_started = False`. -/
def RequestLocalBindings.end_request (l : RequestLocalBindings K V) :
    RequestLocalBindings K V :=
  { l with data := Dict.empty, request_started := false }

/-- The state of a `RequestScope`: the per-thread `RequestLocalBindings`
(`_bindings`, a `threading.local`) and the shared `_factories` dict inherited
from `AbstractScope.__init__`. -/
structure RequestScope (T K V : Type) where
  locals : T → RequestLocalBindings K V
  factories : Dict K (Unit → Option V)

/-- A freshly constructed `RequestScope()`: every thread starts at the
initial per-thread state and no factories are bound. -/
def RequestScope.empty : RequestScope T K V :=
  ⟨fun _ => RequestLocalBindings.init, Dict.empty⟩

/-- Replace the calling thread `t`'s per-thread state (a mutation of the
`threading.local` instance seen by `t`). -/
def RequestScope.updLocal [DecidableEq T] (s : RequestScope T K V) (t : T)
    (l : RequestLocalBindings K V) : RequestScope T K V :=
  { s with locals := fun u => if u = t then l else s.locals u }

/-- `RequestScope.start`: `self._bindings.start_request()` on the calling
thread — no guard, no error path. -/
def RequestScope.start [DecidableEq T] (s : RequestScope T K V) (t : T) :
    RequestScope T K V :=
  s.updLocal t (s.locals t).start_request

/-- `RequestScope.end`: `self._bindings.end_request()` on the calling thread —
no guard, no error path (`end` is a Lean keyword, hence the quoted name). -/
def RequestScope.«end» [DecidableEq T] (s : RequestScope T K V) (t : T) :
    RequestScope T K V :=
  s.updLocal t (s.locals t).end_request

/-- `RequestScope._request_required`: `if not self._bindings.request_started:
raise NoRequestError()`. -/
def RequestScope._request_required (s : RequestScope T K V) (t : T) :
    Except NoRequestError Unit :=
  if (s.locals t).request_started then Except.ok () else
    Except.error NoRequestError.mk

/-- `RequestScope.bind`: `self._request_required()` then
`super(RequestScope, self).bind(type, to)` — the inherited `AbstractScope.bind`
acting on the calling thread's `_bindings` store. -/
def RequestScope.bind [DecidableEq K] [DecidableEq T] (s : RequestScope T K V)
    (t : T) (k : K) (v : Option V) : Except NoRequestError (RequestScope T K V) :=
  match s._request_required t with
  | .error e => .error e
  | .ok _ =>
    let l := s.locals t
    let d := if l.data.contains k then l.data.del k else l.data
    .ok (s.updLocal t { l with data := d.set k v })

/-- `RequestScope.unbind`: `self._request_required()` then the inherited
`AbstractScope.unbind` on the calling thread's store. -/
def RequestScope.unbind [DecidableEq K] [DecidableEq T] (s : RequestScope T K V)
    (t : T) (k : K) : Except NoRequestError (RequestScope T K V) :=
  match s._request_required t with
  | .error e => .error e
  | .ok _ =>
    let l := s.locals t
    .ok (if l.data.contains k then s.updLocal t { l with data := l.data.del k }
      else s)

/-- `AbstractScope.is_bound`, inherited unguarded by `RequestScope`: a plain
membership read of the calling thread's `_bindings` store. -/
def RequestScope.is_bound [DecidableEq K] (s : RequestScope T K V) (t : T)
    (k : K) : Bool :=
  (s.locals t).data.contains k

/-- `AbstractScope.is_factory_bound`, inherited unguarded by `RequestScope`:
a membership read of the shared factories dict. -/
def RequestScope.is_factory_bound [DecidableEq K] (s : RequestScope T K V)
    (k : K) : Bool :=
  s.factories.contains k

/-- `AbstractScope.bind_factory`, inherited unguarded by `RequestScope`,
acting on the shared factories dict. -/
def RequestScope.bind_factory [DecidableEq K] (s : RequestScope T K V) (k : K)
    (factory : PyObj V) : Except (FactoryNotCallable V) (RequestScope T K V) :=
  match factory with
  | .obj _ => Except.error (FactoryNotCallable.mk factory)
  | .func f =>
    let fs := if s.factories.contains k then s.factories.del k else s.factories
    Except.ok { s with factories := fs.set k f }

/-- `RequestScope.get`: `self._request_required()` then the inherited
`AbstractScope.get` on the calling thread's store; its factory branch calls
`self.bind(type, inst)`, which dispatches back to `RequestScope.bind` and
re-runs the guard (the request is still active, so it passes). -/
def RequestScope.get [DecidableEq K] [DecidableEq T] (s : RequestScope T K V)
    (t : T) (k : K) : Except NoRequestError (Option V × Bool × RequestScope T K V) :=
  match s._request_required t with
  | .error e => .error e
  | .ok _ =>
    let l := s.locals t
    if l.data.contains k then .ok (l.data.getD k none, false, s)
    else
      match s.factories.find k with
      | some factory =>
        let inst := factory ()
        match s.bind t k inst with
        | .error e => .error e
        | .ok s2 => .ok (inst, true, s2)
      | none => .ok (none, false, s)

/-- The `AbstractScope` view a single thread `t` has of a `RequestScope`
store: its own `_data` dict as `_bindings`, the shared `_factories`. -/
def RequestScope.view (s : RequestScope T K V) (t : T) : Scope K V :=
  ⟨(s.locals t).data, s.factories⟩

/-- Transport an `AbstractScope` state back into a `RequestScope`: thread
`t`'s `_data` dict and the shared factories are replaced, everything else
(other threads' stores, `t`'s `request_started` flag) is untouched. -/
def RequestScope.setView [DecidableEq T] (s : RequestScope T K V) (t : T)
    (σ : Scope K V) : RequestScope T K V :=
  { locals := fun u => if u = t then { s.locals t with data := σ.bindings }
      else s.locals u
    factories := σ.factories }

@[simp]
theorem RequestScope.locals_updLocal_self [DecidableEq T]
    (s : RequestScope T K V) (t : T) (l : RequestLocalBindings K V) :
    (s.updLocal t l).locals t = l := by
  simp [RequestScope.updLocal]

@[simp]
theorem RequestScope.factories_updLocal [DecidableEq T]
    (s : RequestScope T K V) (t : T) (l : RequestLocalBindings K V) :
    (s.updLocal t l).factories = s.factories :=
  rfl

/-- Writing a thread's own view back is the identity. -/
theorem RequestScope.setView_view [DecidableEq T] (s : RequestScope T K V)
    (t : T) : s.setView t (s.view t) = s := by
  cases s with
  | mk ls fs =>
    unfold RequestScope.setView RequestScope.view
    simp only [RequestScope.mk.injEq, and_true]
    funext u
    by_cases hu : u = t
    · subst hu
      simp
    · simp [hu]

/-- With an active request, `RequestScope.bind` succeeds and acts exactly as
the inherited `AbstractScope.bind` on the calling thread's view. -/
theorem RequestScope.bind_started [DecidableEq K] [DecidableEq T]
    (s : RequestScope T K V) (t : T) (k : K) (v : Option V)
    (h : (s.locals t).request_started = true) :
    s.bind t k v = Except.ok (s.setView t ((s.view t).bind k v)) := by
  unfold RequestScope.bind RequestScope._request_required
  rw [h]
  by_cases hc : (s.locals t).data.contains k <;>
    simp [RequestScope.setView, RequestScope.updLocal, RequestScope.view,
      Scope.bind, Scope.unbind, Scope.is_bound, hc]

/-- With an active request, `RequestScope.unbind` succeeds and acts exactly as
the inherited `AbstractScope.unbind` on the calling thread's view. -/
theorem RequestScope.unbind_started [DecidableEq K] [DecidableEq T]
    (s : RequestScope T K V) (t : T) (k : K)
    (h : (s.locals t).request_started = true) :
    s.unbind t k = Except.ok (s.setView t ((s.view t).unbind k)) := by
  unfold RequestScope.unbind RequestScope._request_required
  rw [h]
  by_cases hc : (s.locals t).data.contains k
  · simp [RequestScope.setView, RequestScope.updLocal, RequestScope.view,
      Scope.unbind, hc]
  · simp only [hc]
    rw [show (s.view t).unbind k = s.view t by
      simp [Scope.unbind, RequestScope.view, hc]]
    rw [RequestScope.setView_view]
    simp

/-- With an active request, `RequestScope.get` succeeds and acts exactly as
the inherited `AbstractScope.get` on the calling thread's view. -/
theorem RequestScope.get_started [DecidableEq K] [DecidableEq T]
    (s : RequestScope T K V) (t : T) (k : K)
    (h : (s.locals t).request_started = true) :
    s.get t k = Except.ok (((s.view t).get k).1, ((s.view t).get k).2.1,
      s.setView t ((s.view t).get k).2.2) := by
  unfold RequestScope.get RequestScope._request_required
  rw [h]
  by_cases hc : (s.locals t).data.contains k
  · rw [show (s.view t).get k = ((s.locals t).data.getD k none, false, s.view t) by
      simp [Scope.get, RequestScope.view, hc]]
    rw [RequestScope.setView_view]
    simp [hc]
  · cases hf : s.factories.find k with
    | some factory =>
      rw [show (s.view t).get k =
          (factory (), true, (s.view t).bind k (factory ())) from
        Scope.get_via_factory
          (by
            simp only [RequestScope.view, Dict.contains] at hc
            exact Option.not_isSome_iff_eq_none.mp hc)
          hf]
      simp only [hc, hf]
      rw [RequestScope.bind_started s t k (factory ()) h]
      simp
    | none =>
      rw [show (s.view t).get k = (none, false, s.view t) from
        Scope.get_absent
          (by
            simp only [RequestScope.view, Dict.contains] at hc
            exact Option.not_isSome_iff_eq_none.mp hc)
          hf]
      rw [RequestScope.setView_view]
      simp [hc, hf]

/-- A concrete `RequestScope` whose only content is the factory `fact7` bound
for key `0` (no thread has started a request); it is exactly the successful
result of `RequestScope.empty.bind_factory 0 (PyObj.func fact7)`. -/
def reqFactScope : RequestScope Nat Nat Nat :=
  { locals := fun _ => RequestLocalBindings.init
    factories := Dict.set Dict.empty 0 fact7 }

/-! Claim theorems about `RequestScope` (claims C2, C5, C8, C10). -/

/-- C2: for every `RequestScope` state and calling thread, `bind`, `unbind`
and `get` raise `NoRequestError` exactly when the thread's `request_started`
flag is false, and when it is true they behave exactly as the inherited
`AbstractScope` operations on the calling thread's view of the store
(thread-local `_bindings`, shared `_factories`), written back into the
per-thread state. -/
theorem request_guard [DecidableEq K] [DecidableEq T] (s : RequestScope T K V)
    (t : T) (k : K) (v : Option V) :
    ((s.locals t).request_started = false →
      s.bind t k v = Except.error NoRequestError.mk ∧
      s.unbind t k = Except.error NoRequestError.mk ∧
      s.get t k = Except.error NoRequestError.mk) ∧
    ((s.locals t).request_started = true →
      s.bind t k v = Except.ok (s.setView t ((s.view t).bind k v)) ∧
      s.unbind t k = Except.ok (s.setView t ((s.view t).unbind k)) ∧
      s.get t k = Except.ok (((s.view t).get k).1, ((s.view t).get k).2.1,
        s.setView t ((s.view t).get k).2.2)) := by
  constructor
  · intro h
    have hg : s._request_required t = Except.error NoRequestError.mk := by
      unfold RequestScope._request_required
      rw [h]
      simp
    refine ⟨?_, ?_, ?_⟩
    · unfold RequestScope.bind
      rw [hg]
    · unfold RequestScope.unbind
      rw [hg]
    · unfold RequestScope.get
      rw [hg]
  · intro h
    exact ⟨s.bind_started t k v h, s.unbind_started t k h, s.get_started t k h⟩

/-- C2 (witness): the guard theorem applied at concrete states — on a fresh
`RequestScope` (flag false) `get` raises `NoRequestError`; after `start` the
same `bind` succeeds as the inherited operation. -/
theorem request_guard_witness :
    (RequestScope.empty : RequestScope Nat Nat Nat).get 0 0 =
      Except.error NoRequestError.mk ∧
    (RequestScope.empty.start 0 : RequestScope Nat Nat Nat).bind 0 0 (some 5) =
      Except.ok ((RequestScope.empty.start 0).setView 0
        (((RequestScope.empty.start 0 : RequestScope Nat Nat Nat).view 0).bind 0
          (some 5))) :=
  ⟨((request_guard (RequestScope.empty : RequestScope Nat Nat Nat) 0 0
      (some 5)).1 rfl).2.2,
    ((request_guard ((RequestScope.empty : RequestScope Nat Nat Nat).start 0) 0 0
      (some 5)).2 rfl).1⟩

/-- C5: for a thread with an active request, `end` clears that thread's
binding map entirely and resets its flag, while leaving the shared factories
dict untouched; a factory bound for `k` before `end` is therefore still
factory-bound, and in the next request on that thread (after `start`) the
first `get k` invokes it again (the `true` flag), returning its result. -/
theorem end_clears_bindings_keeps_factories [DecidableEq K] [DecidableEq T]
    (s : RequestScope T K V) (t : T) (k : K) (f : Unit → Option V)
    (_hactive : (s.locals t).request_started = true)
    (hf : s.factories.find k = some f) :
    ((s.«end» t).locals t).data = Dict.empty ∧
    ((s.«end» t).locals t).request_started = false ∧
    (s.«end» t).factories = s.factories ∧
    (s.«end» t).is_factory_bound k = true ∧
    (∃ s2, ((s.«end» t).start t).get t k = Except.ok (f (), true, s2)) := by
  refine ⟨by simp [RequestScope.«end», RequestLocalBindings.end_request],
    by simp [RequestScope.«end», RequestLocalBindings.end_request],
    rfl,
    by simp [RequestScope.is_factory_bound, RequestScope.«end», Dict.contains, hf],
    ?_⟩
  have hflag : (((s.«end» t).start t).locals t).request_started = true := by
    simp [RequestScope.start, RequestScope.«end», RequestLocalBindings.start_request]
  have hb : (((s.«end» t).start t).view t).bindings.find k = none := by
    simp [RequestScope.view, RequestScope.start, RequestScope.«end»,
      RequestLocalBindings.start_request, RequestLocalBindings.end_request]
  have hff : (((s.«end» t).start t).view t).factories.find k = some f := by
    simp [RequestScope.view, RequestScope.start, RequestScope.«end», hf]
  refine ⟨((s.«end» t).start t).setView t
    ((((s.«end» t).start t).view t).get k).2.2, ?_⟩
  rw [RequestScope.get_started _ t k hflag]
  rw [Scope.get_via_factory hb hff]

/-- C5 (witness): the theorem applied on `reqFactScope` after `start 0`: `end`
clears the thread's map, the factory for key `0` survives, and the next
request's first `get` re-invokes it, yielding `7`. -/
theorem end_clears_bindings_keeps_factories_witness :
    (((reqFactScope.start 0).locals 0).request_started = true ∧
      (reqFactScope.start 0).factories.find 0 = some fact7) ∧
    ((((reqFactScope.start 0).«end» 0).locals 0).data = Dict.empty ∧
      ((reqFactScope.start 0).«end» 0).is_factory_bound 0 = true ∧
      ∃ s2, (((reqFactScope.start 0).«end» 0).start 0).get 0 0 =
        Except.ok (some 7, true, s2)) :=
  ⟨⟨rfl, rfl⟩,
    (end_clears_bindings_keeps_factories (reqFactScope.start 0) 0 0 fact7 rfl rfl).1,
    (end_clears_bindings_keeps_factories (reqFactScope.start 0) 0 0 fact7 rfl rfl).2.2.2.1,
    (end_clears_bindings_keeps_factories (reqFactScope.start 0) 0 0 fact7 rfl rfl).2.2.2.2⟩

/-- C8: `is_bound` and `is_factory_bound` are inherited unguarded total reads
— they have no `NoRequestError` outcome in their types, and even on a thread
whose `request_started` flag is false they return the membership read of
whatever per-thread map remains there (in particular `false` on a fresh
scope whose thread never started a request). -/
theorem unguarded_probes [DecidableEq K] [DecidableEq T]
    (s : RequestScope T K V) (t : T) (k : K)
    (_hflag : (s.locals t).request_started = false) :
    s.is_bound t k = ((s.locals t).data.find k).isSome ∧
    s.is_factory_bound k = (s.factories.find k).isSome ∧
    (RequestScope.empty : RequestScope T K V).is_bound t k = false :=
  ⟨rfl, rfl, rfl⟩

/-- C8 (witness): the probe theorem applied on `reqFactScope` (no active
request on thread `0`): both probes answer without any error. -/
theorem unguarded_probes_witness :
    reqFactScope.is_bound 0 0 = ((reqFactScope.locals 0).data.find 0).isSome ∧
    reqFactScope.is_factory_bound 0 = (reqFactScope.factories.find 0).isSome :=
  ⟨(unguarded_probes reqFactScope 0 0 rfl).1,
    (unguarded_probes reqFactScope 0 0 rfl).2.1⟩

/-- C10: `start` and `end` themselves are unguarded total operations with no
`NoRequestError` outcome: `end` on a thread with no active request still
resets that thread's state (binding map cleared, flag false — the initial
per-thread state), and calling `start` twice without an intervening `end`
leaves the flag true and the thread's binding map untouched. -/
theorem start_end_unguarded [DecidableEq K] [DecidableEq T]
    (s : RequestScope T K V) (t : T)
    (_hflag : (s.locals t).request_started = false) :
    (s.«end» t).locals t = RequestLocalBindings.init ∧
    (((s.start t).start t).locals t).request_started = true ∧
    (((s.start t).start t).locals t).data = (s.locals t).data := by
  refine ⟨?_, ?_, ?_⟩ <;>
    simp [RequestScope.«end», RequestScope.start,
      RequestLocalBindings.end_request, RequestLocalBindings.start_request,
      RequestLocalBindings.init]

/-- C10 (witness): the theorem applied on a fresh scope at thread `0`. -/
theorem start_end_unguarded_witness :
    ((RequestScope.empty : RequestScope Nat Nat Nat).«end» 0).locals 0 =
      RequestLocalBindings.init ∧
    ((((RequestScope.empty : RequestScope Nat Nat Nat).start 0).start 0).locals
      0).request_started = true :=
  ⟨(start_end_unguarded RequestScope.empty 0 rfl).1,
    (start_end_unguarded RequestScope.empty 0 rfl).2.1⟩

end Inject
